import Mathlib

/-!
Verification development for the `coat` UI library's button widgets and its
render-object contract, shallowly embedded from the Rust sources
`src/widgets/button.rs`, `src/render.rs` and `src/elements/button.rs`.

Numeric quantities that are `f64` in the source are modelled as rationals.
Types of the crate that are outside the provided sources (the phase context
objects and the box-constraint values) are modelled from the spec; each such
definition carries a doc comment saying so.
-/

/-- Two-dimensional size (kurbo `Size`); components are rationals standing for `f64`. -/
structure Size where
  width : ℚ
  height : ℚ
deriving DecidableEq, Repr

/-- Componentwise clamp, as kurbo `Size::clamp`: each component is
`v.max(lo).min(hi)`. -/
def Size.clamp (s lo hi : Size) : Size :=
  ⟨Min.min (Max.max s.width lo.width) hi.width,
   Min.min (Max.max s.height lo.height) hi.height⟩

/-- Two-dimensional vector (druid `Vec2`). -/
structure Vec2 where
  x : ℚ
  y : ℚ
deriving DecidableEq, Repr

/-- Rectangle insets (druid `Insets`). -/
structure Insets where
  x0 : ℚ
  y0 : ℚ
  x1 : ℚ
  y1 : ℚ
deriving DecidableEq, Repr

/-- As druid `Insets::uniform_xy`. -/
def Insets.uniform_xy (x y : ℚ) : Insets := ⟨x, y, x, y⟩

/-- As druid `Insets::x_value`: total horizontal inset `x0 + x1`. -/
def Insets.x_value (i : Insets) : ℚ := i.x0 + i.x1

/-- As druid `Insets::y_value`: total vertical inset `y0 + y1`. -/
def Insets.y_value (i : Insets) : ℚ := i.y0 + i.y1

/-- The constant `LABEL_INSETS` of `src/widgets/button.rs`:
`Insets::uniform_xy(8., 2.)`. -/
def LABEL_INSETS : Insets := Insets.uniform_xy 8 2

/-- Modelled from the spec: `crate::BoxConstraints` is not among the provided
sources. The spec describes it as "a box-constraint value (min/max size)
passed top-down through layout" into which a returned size is clamped
componentwise. -/
structure BoxConstraints where
  min : Size
  max : Size
deriving DecidableEq, Repr

/-- Modelled from the spec: clamp the given size componentwise into
`[min, max]`. -/
def BoxConstraints.constrain (bc : BoxConstraints) (s : Size) : Size :=
  s.clamp bc.min bc.max

/-- Modelled from the spec: shrink both bounds by the given padding,
saturating at zero. -/
def BoxConstraints.shrink (bc : BoxConstraints) (diff : Size) : BoxConstraints :=
  ⟨⟨Max.max (bc.min.width - diff.width) 0, Max.max (bc.min.height - diff.height) 0⟩,
   ⟨Max.max (bc.max.width - diff.width) 0, Max.max (bc.max.height - diff.height) 0⟩⟩

/-- Modelled from the spec: drop the minimum-size requirement, keeping the maximum. -/
def BoxConstraints.loosen (bc : BoxConstraints) : BoxConstraints :=
  ⟨⟨0, 0⟩, bc.max⟩

/-- RGBA color (druid `Color`), channels as rationals in `[0, 1]`. -/
structure Color where
  r : ℚ
  g : ℚ
  b : ℚ
  a : ℚ
deriving DecidableEq, Repr

/-- As druid `Color::rgb`: opaque color. -/
def Color.rgb (r g b : ℚ) : Color := ⟨r, g, b, 1⟩

/-- As druid `Color::with_alpha`. -/
def Color.with_alpha (c : Color) (a : ℚ) : Color := { c with a := a }

def Color.BLACK : Color := ⟨0, 0, 0, 1⟩

def Color.WHITE : Color := ⟨1, 1, 1, 1⟩

/-- The constant `TRANSPARENT` of the `style` module: `Color::rgba8(0, 0, 0, 0)`. -/
def TRANSPARENT : Color := ⟨0, 0, 0, 0⟩

/-- The `style::Background` enum of `src/widgets/button.rs`. -/
inductive Background
  | color (c : Color)
deriving DecidableEq, Repr

/-- The `style::Style` struct of `src/widgets/button.rs`: the appearance of a button. -/
structure Style where
  min_height : ℚ
  border_width : ℚ
  border_radius : ℚ
  border_color : Color
  background : Background
  shadow_offset : Vec2
  text_color : Color
deriving DecidableEq, Repr

/-- The `style::StyleSheet` trait of `src/widgets/button.rs`, modelled as its
method table: one `Style` per interaction state. -/
structure StyleSheet where
  enabled : Style
  hovered : Style
  pressed : Style
  disabled : Style
deriving DecidableEq, Repr

/-- Builds a `StyleSheet` from an `enabled` style using the trait's default
method bodies for `hovered`, `pressed` and `disabled`
(`src/widgets/button.rs`, `StyleSheet` default methods). -/
def StyleSheet.ofEnabled (e : Style) : StyleSheet :=
  { enabled := e
    hovered := { e with shadow_offset := ⟨e.shadow_offset.x, e.shadow_offset.y + 1⟩ }
    pressed := { e with shadow_offset := ⟨0, 0⟩ }
    disabled :=
      { e with
        shadow_offset := ⟨0, 0⟩
        background := match e.background with
          | .color c => .color (c.with_alpha (1/2))
        text_color := e.text_color.with_alpha (1/2) } }

/-- The `style::Default` style sheet of `src/widgets/button.rs`: it overrides
only `enabled`; the remaining styles come from the trait's default methods. -/
def defaultStyleSheet : StyleSheet :=
  StyleSheet.ofEnabled
    { min_height := 24
      border_width := 1
      border_radius := 2
      border_color := Color.rgb (7/10) (7/10) (7/10)
      background := .color (Color.rgb (87/100) (87/100) (87/100))
      shadow_offset := ⟨0, 0⟩
      text_color := Color.BLACK }

/-- The `Button` properties struct of `src/widgets/button.rs`. -/
structure Button where
  label : String
  disabled : Bool
  style : Option StyleSheet
deriving DecidableEq, Repr

/-- `Button::new`, i.e. the derived `Default`. -/
def Button.new : Button := ⟨"", false, none⟩

/-- The `ButtonAction` enum of `src/widgets/button.rs`. -/
inductive ButtonAction
  | clicked
deriving DecidableEq, Repr

/-- The `ButtonObject` render object of `src/widgets/button.rs`. -/
structure ButtonObject where
  props : Button
  label_size : Size
deriving DecidableEq, Repr

/-- `ButtonObject::style`: select a style from the sheet (the explicit sheet if
any, else `style::Default`) by the disabled/hovered/pressed state. -/
def ButtonObject.style (o : ButtonObject) (hovered pressed : Bool) : Style :=
  let sheet := o.props.style.getD defaultStyleSheet
  match o.props.disabled, hovered, pressed with
  | true, _, _ => sheet.disabled
  | false, true, true => sheet.pressed
  | false, true, false => sheet.hovered
  | false, false, _ => sheet.enabled

/-- Modelled from the spec: `crate::context::UpdateCtx` is not among the
provided sources; the spec gives it exactly "request-layout, request-paint". -/
structure UpdateCtx where
  layoutRequested : Bool
  paintRequested : Bool
deriving DecidableEq, Repr

/-- Modelled from the spec: `UpdateCtx::request_layout` sets the layout dirty flag. -/
def UpdateCtx.request_layout (c : UpdateCtx) : UpdateCtx :=
  { c with layoutRequested := true }

/-- Modelled from the spec: `crate::context::EventCtx` is not among the
provided sources; the spec gives it "read/set hot, read/set active, mark event
handled, request-paint". The `submitted` list records actions submitted for
the declaration call to report. -/
structure EventCtx where
  hot : Bool
  active : Bool
  handled : Bool
  paintRequested : Bool
  submitted : List ButtonAction
deriving DecidableEq, Repr

/-- Mouse buttons (druid `MouseButton`), as far as the button widget inspects them. -/
inductive MouseButton
  | left
  | right
  | middle
deriving DecidableEq, Repr

/-- The part of a druid mouse event the button widget inspects. -/
structure MouseEvent where
  button : MouseButton
deriving DecidableEq, Repr

/-- The `Event` enum, as far as `ButtonObject::event` matches on it: mouse-down,
mouse-up, and the wildcard arm for every other event. -/
inductive Event
  | mouseDown (m : MouseEvent)
  | mouseUp (m : MouseEvent)
  | other
deriving DecidableEq, Repr

/-- The `LifeCycle` enum, as far as `ButtonObject::lifecycle` matches on it. -/
inductive LifeCycle
  | hotChanged (b : Bool)
  | other
deriving DecidableEq, Repr

/-- Modelled from the spec: `crate::context::LifeCycleCtx` is not among the
provided sources; the spec gives it "request-paint". -/
structure LifeCycleCtx where
  paintRequested : Bool
deriving DecidableEq, Repr

/-- Modelled from the spec: `crate::context::LayoutCtx` is not among the
provided sources; the spec gives it "read hot/active, set baseline offset". -/
structure LayoutCtx where
  hot : Bool
  active : Bool
  baseline_offset : ℚ
deriving DecidableEq, Repr

/-- `ButtonObject::update` (`src/widgets/button.rs`): if the new props differ
from the retained props, request layout and store the new props; otherwise do
nothing. -/
def ButtonObject.update (o : ButtonObject) (ctx : UpdateCtx) (props : Button) :
    ButtonObject × UpdateCtx :=
  if o.props ≠ props then ({ o with props := props }, ctx.request_layout)
  else (o, ctx)

/-- The match statement of `ButtonObject::event` (`src/widgets/button.rs`): the
button's own handling of one event, before forwarding to children. The source
never calls `submit_action` (the call is commented out), so `submitted` is
never extended. -/
def ButtonObject.handleEvent (o : ButtonObject) (ctx : EventCtx) (e : Event) :
    EventCtx :=
  match e with
  | .mouseDown m =>
      if m.button = MouseButton.left then
        { ctx with active := true, paintRequested := true }
      else ctx
  | .mouseUp m =>
      if ctx.active = true ∧ m.button = MouseButton.left then
        let c1 := { ctx with active := false }
        let c2 := if c1.hot = true then { c1 with handled := true } else c1
        { c2 with paintRequested := true }
      else ctx
  | .other => ctx

/-- One step of the forwarding loop of `ButtonObject::event`: forward the event
to one child, threading the context. -/
def eventStep {σ : Type} (childEvent : EventCtx → Event → σ → EventCtx × σ)
    (e : Event) (acc : EventCtx × List σ) (c : σ) : EventCtx × List σ :=
  ((childEvent acc.1 e c).1, acc.2 ++ [(childEvent acc.1 e c).2])

/-- `ButtonObject::event` (`src/widgets/button.rs`): the own handling above,
then `for child in children { child.event(ctx, event) }`. The children are a
list of child states `σ` whose `event` method is the parameter `childEvent`. -/
def ButtonObject.event {σ : Type} (childEvent : EventCtx → Event → σ → EventCtx × σ)
    (o : ButtonObject) (ctx : EventCtx) (e : Event) (children : List σ) :
    EventCtx × List σ :=
  children.foldl (eventStep childEvent e) (o.handleEvent ctx e, [])

/-- `ButtonObject::lifecycle` (`src/widgets/button.rs`): request paint on a
hot-changed notification, nothing otherwise. -/
def ButtonObject.lifecycle (o : ButtonObject) (ctx : LifeCycleCtx) (e : LifeCycle) :
    LifeCycleCtx :=
  match e with
  | .hotChanged _ => { ctx with paintRequested := true }
  | .other => ctx

/-- `ButtonObject::layout` (`src/widgets/button.rs`): lay out the label child
under the padded-and-loosened constraints, set the baseline offset, and return
the padded label size (height at least the style's `min_height`) constrained
into `bc`. The label child's `layout` and `baseline_offset` are the parameters
`childLayout` and `childBaseline`. -/
def ButtonObject.layout (o : ButtonObject) (ctx : LayoutCtx) (bc : BoxConstraints)
    (childLayout : BoxConstraints → Size) (childBaseline : ℚ) :
    ButtonObject × LayoutCtx × Size :=
  let style := o.style ctx.hot ctx.active
  let padding : Size := ⟨LABEL_INSETS.x_value, LABEL_INSETS.y_value⟩
  let label_bc := (bc.shrink padding).loosen
  let label_size := childLayout label_bc
  let min_height := style.min_height
  let ctx1 := { ctx with baseline_offset := childBaseline + LABEL_INSETS.y1 }
  ({ o with label_size := label_size }, ctx1,
    bc.constrain ⟨label_size.width + padding.width,
      Max.max (label_size.height + padding.height) min_height⟩)

/-- Whether a closure passed to `with_save` ran to completion or exited early. -/
inductive ExitKind
  | normal
  | early
deriving DecidableEq, Repr

/-- A rounded rectangle (kurbo `RoundedRect`). -/
structure RoundedRect where
  x0 : ℚ
  y0 : ℚ
  x1 : ℚ
  y1 : ℚ
  radius : ℚ
deriving DecidableEq, Repr

/-- Parameters of a backend text-layout construction
(`new_text_layout(..).max_width(..).text_color(..).alignment(..)`). -/
structure TextLayoutParams where
  text : String
  max_width : ℚ
  color : Color
deriving DecidableEq, Repr

/-- A built backend text layout (piet `PietTextLayout`): the request it was
built from plus its measured size. -/
structure TextLayout where
  params : TextLayoutParams
  size : Size
deriving DecidableEq, Repr

/-- A drawing call issued to the backend. -/
inductive DrawOp
  | strokeShape (shape : RoundedRect) (color : Color) (width : ℚ)
  | fillShape (shape : RoundedRect) (color : Color)
  | drawText (layout : TextLayout) (offset : Vec2)
deriving DecidableEq, Repr

/-- Modelled from the spec: `crate::context::PaintCtx` is not among the
provided sources; the spec gives it "access to drawing backend, read
size/hot/active, scoped transform save/restore". The transform is the
accumulated translation; `ops` records the drawing calls issued. -/
structure PaintCtx where
  hot : Bool
  active : Bool
  size : Size
  transform : Vec2
  ops : List DrawOp
deriving DecidableEq, Repr

/-- Backend `stroke`: record the call; the transform is untouched. -/
def PaintCtx.stroke (c : PaintCtx) (shape : RoundedRect) (color : Color) (w : ℚ) :
    PaintCtx :=
  { c with ops := c.ops ++ [DrawOp.strokeShape shape color w] }

/-- Backend `fill`: record the call; the transform is untouched. -/
def PaintCtx.fill (c : PaintCtx) (shape : RoundedRect) (color : Color) : PaintCtx :=
  { c with ops := c.ops ++ [DrawOp.fillShape shape color] }

/-- Backend `transform` with a translation: compose it onto the current transform. -/
def PaintCtx.translate (c : PaintCtx) (v : Vec2) : PaintCtx :=
  { c with transform := ⟨c.transform.x + v.x, c.transform.y + v.y⟩ }

/-- Modelled from the spec: `PaintCtx::with_save` (`crate::context`, not among
the provided sources). The spec requires "the transform must be restored on
every exit path, not only the success path": the saved transform is restored
whether the closure exits normally or early. -/
def PaintCtx.with_save (f : PaintCtx → ExitKind × PaintCtx) (c : PaintCtx) :
    ExitKind × PaintCtx :=
  let saved := c.transform
  let r := f c
  (r.1, { r.2 with transform := saved })

/-- `ButtonObject::paint` (`src/widgets/button.rs`): stroke and fill the
inset rounded rect with the style's border and background, then paint the
label child, translated so the label is centered, inside `with_save`. The
label child's `paint` is the parameter `childPaint`. -/
def ButtonObject.paint (childPaint : PaintCtx → ExitKind × PaintCtx)
    (o : ButtonObject) (ctx : PaintCtx) : ExitKind × PaintCtx :=
  let style := o.style ctx.hot ctx.active
  let stroke_width := style.border_width
  let rounded_rect : RoundedRect :=
    ⟨0 + stroke_width / 2, 0 + stroke_width / 2,
     ctx.size.width - stroke_width / 2, ctx.size.height - stroke_width / 2,
     style.border_radius⟩
  let bg := match style.background with
    | .color c => c
  let ctx1 := ctx.stroke rounded_rect style.border_color stroke_width
  let ctx2 := ctx1.fill rounded_rect bg
  let label_offset : Vec2 :=
    ⟨(ctx.size.width - o.label_size.width) / 2,
     (ctx.size.height - o.label_size.height) / 2⟩
  PaintCtx.with_save (fun c => childPaint (c.translate label_offset)) ctx2

/-- The `Properties` trait of `src/render.rs`, modelled as its method table:
the associated render-object type is the parameter `S` of `RenderObjectImpl`,
and `name` is the debug name of the properties type. -/
structure Properties (P : Type) where
  name : String

/-- The `RenderObject` trait of `src/render.rs`, modelled as a method table
over a state type `S`, a properties type `P` and a children-collection type
`C`. Stateful methods return the updated state and context explicitly. -/
structure RenderObjectImpl (S P C : Type) where
  props : Properties P
  create : P → S
  update : S → UpdateCtx → P → S × UpdateCtx
  event : S → EventCtx → Event → C → S × EventCtx × C
  lifecycle : S → LifeCycleCtx → LifeCycle → S × LifeCycleCtx
  layout : S → LayoutCtx → BoxConstraints → C → S × LayoutCtx × C × Size
  paint : S → PaintCtx → C → S × PaintCtx × C

/-- The `AnyRenderObject` trait of `src/render.rs`: the uniform
dynamic-dispatch interface (no properties type). -/
structure AnyRenderObject (S C : Type) where
  name : String
  event : S → EventCtx → Event → C → S × EventCtx × C
  lifecycle : S → LifeCycleCtx → LifeCycle → S × LifeCycleCtx
  layout : S → LayoutCtx → BoxConstraints → C → S × LayoutCtx × C × Size
  paint : S → PaintCtx → C → S × PaintCtx × C

/-- The blanket `impl<R> AnyRenderObject for R where R: RenderObject` of
`src/render.rs`: each method delegates to `R`'s method, and `name` returns
`<R::Props as Properties>::name()`. -/
def RenderObjectImpl.toAny {S P C : Type} (r : RenderObjectImpl S P C) :
    AnyRenderObject S C :=
  { name := r.props.name
    event := r.event
    lifecycle := r.lifecycle
    layout := r.layout
    paint := r.paint }

/-- Modelled from the spec: `crate::constraints::Constraints` (used by the
legacy elements) is not among the provided sources; like `BoxConstraints` it
is a min/max pair of sizes. -/
structure Constraints where
  min : Size
  max : Size
deriving DecidableEq, Repr

/-- The `ButtonElement` struct of `src/elements/button.rs`: the text and the
cached text layout. -/
structure ButtonElement where
  text : String
  layout : Option TextLayout
deriving DecidableEq, Repr

/-- `ButtonElement::layout` (`src/elements/button.rs`): if no text layout is
cached, build one through the backend (`white`, centered, max width from the
constraints) and `unwrap` the result — a backend failure (modelled as `none`)
panics, modelled as an overall `none`. Always returns `constraints.max` as the
size. -/
def ButtonElement.doLayout (backend : TextLayoutParams → Option TextLayout)
    (el : ButtonElement) (constraints : Constraints) :
    Option (ButtonElement × Size) :=
  match el.layout with
  | some _ => some (el, constraints.max)
  | none =>
      match backend ⟨el.text, constraints.max.width, Color.WHITE⟩ with
      | some tl => some ({ el with layout := some tl }, constraints.max)
      | none => none

/-- `ButtonElement::paint` (`src/elements/button.rs`): `unwrap` the cached text
layout (panic, modelled as `none`, if absent), fill a rounded background, then
draw the text centered in the given size. -/
def ButtonElement.doPaint (el : ButtonElement) (size : Size) :
    Option (List DrawOp) :=
  match el.layout with
  | none => none
  | some layout =>
      some [DrawOp.fillShape ⟨0, 0, size.width, size.height, 5⟩
              (Color.rgb (1/2) (1/2) (87/100)),
            DrawOp.drawText layout
              ⟨(size.width - layout.size.width) / 2,
               (size.height - layout.size.height) / 2⟩]

/-- An event context in the middle of a completed click: the pointer is over
the button (`hot`) and a left press was received earlier (`active`). -/
def clickCtx : EventCtx :=
  { hot := true, active := true, handled := false, paintRequested := false,
    submitted := [] }

/-- Claim C1: the claim says a completed click (left pointer-up while active
and hot) makes `ButtonObject::event` submit `ButtonAction::Clicked`, so that
`Button::build` returns true for that pass. In the source the
`submit_action(ButtonAction::Clicked)` call is commented out
(`src/widgets/button.rs` line 95): the completed click below is recognized
(the event is marked handled, `active` is cleared) yet the list of submitted
actions stays empty, so no pass can observe a click through the action value. -/
theorem C1_completed_click_submits_no_action :
    (ButtonObject.event (fun c _ s => (c, s)) ⟨Button.new, ⟨0, 0⟩⟩ clickCtx
        (Event.mouseUp ⟨MouseButton.left⟩) ([] : List Unit)).1.submitted = []
    ∧ (ButtonObject.event (fun c _ s => (c, s)) ⟨Button.new, ⟨0, 0⟩⟩ clickCtx
        (Event.mouseUp ⟨MouseButton.left⟩) ([] : List Unit)).1.handled = true
    ∧ (ButtonObject.event (fun c _ s => (c, s)) ⟨Button.new, ⟨0, 0⟩⟩ clickCtx
        (Event.mouseUp ⟨MouseButton.left⟩) ([] : List Unit)).1.active = false :=
  ⟨rfl, rfl, rfl⟩

/-- Claim C2: `ButtonObject::update` with props equal to the retained props
changes neither the object nor the context (no dirty flags); with unequal
props it requests layout and replaces the retained props. -/
theorem C2_update_noop_iff_props_unchanged (o : ButtonObject) (ctx : UpdateCtx)
    (props : Button) :
    (o.props = props → ButtonObject.update o ctx props = (o, ctx))
    ∧ (o.props ≠ props →
        ButtonObject.update o ctx props
          = ({ o with props := props }, ctx.request_layout)) := by
  constructor
  · intro h
    simp [ButtonObject.update, h]
  · intro h
    simp [ButtonObject.update, h]

/-- Witness for C2 at concrete inputs: an unchanged-props update is a no-op,
and a changed-props update stores the new props and sets the layout flag. -/
theorem C2_update_noop_iff_props_unchanged_witness :
    ButtonObject.update ⟨Button.new, ⟨0, 0⟩⟩ ⟨false, false⟩ Button.new
      = (⟨Button.new, ⟨0, 0⟩⟩, ⟨false, false⟩)
    ∧ ButtonObject.update ⟨Button.new, ⟨0, 0⟩⟩ ⟨false, false⟩ ⟨"OK", false, none⟩
      = (⟨⟨"OK", false, none⟩, ⟨0, 0⟩⟩, ⟨true, false⟩) := by
  refine ⟨(C2_update_noop_iff_props_unchanged ⟨Button.new, ⟨0, 0⟩⟩ ⟨false, false⟩
      Button.new).1 rfl, ?_⟩
  exact (C2_update_noop_iff_props_unchanged ⟨Button.new, ⟨0, 0⟩⟩ ⟨false, false⟩
      ⟨"OK", false, none⟩).2 (by decide)

/-- Claim C3: with the default style sheet (no explicit sheet on the props),
`ButtonObject::layout` returns `(label_width + 16, max(label_height + 4, 24))`
clamped componentwise into the constraints, where the label size is what the
label child returns under the padded-and-loosened child constraints. -/
theorem C3_default_layout_formula (o : ButtonObject) (ctx : LayoutCtx)
    (bc : BoxConstraints) (childLayout : BoxConstraints → Size)
    (childBaseline : ℚ) (hsheet : o.props.style = none) :
    (ButtonObject.layout o ctx bc childLayout childBaseline).2.2 =
      bc.constrain
        ⟨(childLayout ((bc.shrink ⟨16, 4⟩).loosen)).width + 16,
         Max.max ((childLayout ((bc.shrink ⟨16, 4⟩).loosen)).height + 4) 24⟩ := by
  have hpad : (⟨LABEL_INSETS.x_value, LABEL_INSETS.y_value⟩ : Size) = ⟨16, 4⟩ := by
    simp [LABEL_INSETS, Insets.uniform_xy, Insets.x_value, Insets.y_value]
    norm_num
  have hmin : ∀ hovered pressed, (ButtonObject.style o hovered pressed).min_height = 24 := by
    intro hovered pressed
    cases hd : o.props.disabled <;> cases hovered <;> cases pressed <;>
      simp [ButtonObject.style, hsheet, hd, defaultStyleSheet, StyleSheet.ofEnabled]
  simp only [ButtonObject.layout, hpad, hmin ctx.hot ctx.active]
  norm_num [LABEL_INSETS, Insets.x_value, Insets.y_value, Insets.uniform_xy]

/-- Witness for C3: a button with label child of size 30×10 under constraints
max 200×50 measures 46×24 — width 30+16, height max(10+4, 24) = 24, inside the
constraints. -/
theorem C3_default_layout_formula_witness :
    (ButtonObject.layout ⟨Button.new, ⟨0, 0⟩⟩ ⟨false, false, 0⟩
        ⟨⟨0, 0⟩, ⟨200, 50⟩⟩ (fun _ => ⟨30, 10⟩) 0).2.2 = ⟨46, 24⟩ := by
  have h := C3_default_layout_formula ⟨Button.new, ⟨0, 0⟩⟩ ⟨false, false, 0⟩
    ⟨⟨0, 0⟩, ⟨200, 50⟩⟩ (fun _ => ⟨30, 10⟩) 0 rfl
  rw [h]
  norm_num [BoxConstraints.constrain, Size.clamp]

/-- The forwarding loop of `ButtonObject::event` only appends the forwarded
children: if the child handler leaves the child state unchanged, the child
list that comes out equals the one that went in. -/
theorem eventStep_foldl_children {σ : Type}
    (childEvent : EventCtx → Event → σ → EventCtx × σ)
    (hpres : ∀ c e s, (childEvent c e s).2 = s) (e : Event) :
    ∀ (children : List σ) (ctx : EventCtx) (acc : List σ),
      (children.foldl (eventStep childEvent e) (ctx, acc)).2 = acc ++ children := by
  intro children
  induction children with
  | nil => intro ctx acc; simp
  | cons c cs ih =>
      intro ctx acc
      simp only [List.foldl_cons, eventStep, hpres]
      rw [ih]
      simp

/-- Claim C4: the event state machine of `ButtonObject::event`. A left
pointer-down sets `active` and requests paint; a left pointer-up while active
clears `active`, requests paint, and marks the event handled exactly when the
node is hot; a non-left pointer event, a pointer-up while inactive, and every
other event leave the context untouched; and the button's own handling leaves
child state alone. -/
theorem C4_event_state_machine (o : ButtonObject) (ctx : EventCtx) :
    (∀ m : MouseEvent, m.button = MouseButton.left →
      o.handleEvent ctx (Event.mouseDown m)
        = { ctx with active := true, paintRequested := true })
    ∧ (∀ m : MouseEvent, m.button = MouseButton.left → ctx.active = true →
      o.handleEvent ctx (Event.mouseUp m)
        = { ctx with
              active := false
              handled := if ctx.hot = true then true else ctx.handled
              paintRequested := true })
    ∧ (∀ m : MouseEvent, m.button ≠ MouseButton.left →
        o.handleEvent ctx (Event.mouseDown m) = ctx
        ∧ o.handleEvent ctx (Event.mouseUp m) = ctx)
    ∧ (ctx.active = false → ∀ m : MouseEvent,
        o.handleEvent ctx (Event.mouseUp m) = ctx)
    ∧ (o.handleEvent ctx Event.other = ctx)
    ∧ (∀ (σ : Type) (childEvent : EventCtx → Event → σ → EventCtx × σ),
        (∀ c e s, (childEvent c e s).2 = s) →
        ∀ (e : Event) (children : List σ),
          (ButtonObject.event childEvent o ctx e children).2 = children) := by
  refine ⟨?_, ?_, ?_, ?_, ?_, ?_⟩
  · intro m hm
    simp [ButtonObject.handleEvent, hm]
  · intro m hm ha
    cases hh : ctx.hot <;>
      simp [ButtonObject.handleEvent, hm, ha, hh]
  · intro m hm
    constructor <;> simp [ButtonObject.handleEvent, hm]
  · intro ha m
    simp [ButtonObject.handleEvent, ha]
  · simp [ButtonObject.handleEvent]
  · intro σ childEvent hpres e children
    simp only [ButtonObject.event]
    rw [eventStep_foldl_children childEvent hpres e children _ []]
    simp

/-- Witness for C4 at concrete inputs: on a hot, active context a left
pointer-down activates, a left pointer-up completes the click as handled, a
right-button press does nothing, a pointer-up on an inactive context does
nothing, and forwarding an event across one state-preserving child keeps the
child list. -/
theorem C4_event_state_machine_witness :
    (ButtonObject.handleEvent ⟨Button.new, ⟨0, 0⟩⟩ clickCtx
        (Event.mouseDown ⟨MouseButton.left⟩)
      = { clickCtx with active := true, paintRequested := true })
    ∧ (ButtonObject.handleEvent ⟨Button.new, ⟨0, 0⟩⟩ clickCtx
        (Event.mouseUp ⟨MouseButton.left⟩)
      = { clickCtx with
            active := false
            handled := if clickCtx.hot = true then true else clickCtx.handled
            paintRequested := true })
    ∧ (ButtonObject.handleEvent ⟨Button.new, ⟨0, 0⟩⟩ clickCtx
        (Event.mouseDown ⟨MouseButton.right⟩) = clickCtx)
    ∧ (ButtonObject.handleEvent ⟨Button.new, ⟨0, 0⟩⟩
        { clickCtx with active := false } (Event.mouseUp ⟨MouseButton.left⟩)
      = { clickCtx with active := false })
    ∧ (ButtonObject.event (fun c _ s => (c, s)) ⟨Button.new, ⟨0, 0⟩⟩ clickCtx
        Event.other [(), ()]).2 = [(), ()] := by
  have h := C4_event_state_machine ⟨Button.new, ⟨0, 0⟩⟩ clickCtx
  have h2 := C4_event_state_machine ⟨Button.new, ⟨0, 0⟩⟩ { clickCtx with active := false }
  exact ⟨h.1 ⟨MouseButton.left⟩ rfl,
         h.2.1 ⟨MouseButton.left⟩ rfl rfl,
         (h.2.2.1 ⟨MouseButton.right⟩ (by decide)).1,
         h2.2.2.2.1 rfl ⟨MouseButton.left⟩,
         h.2.2.2.2.2 Unit (fun c _ s => (c, s)) (fun _ _ _ => rfl) Event.other [(), ()]⟩

/-- The size `s` lies within the box `[lo, hi]` componentwise. -/
def sizeWithin (s lo hi : Size) : Prop :=
  lo.width ≤ s.width ∧ s.width ≤ hi.width
    ∧ lo.height ≤ s.height ∧ s.height ≤ hi.height

instance (s lo hi : Size) : Decidable (sizeWithin s lo hi) := by
  unfold sizeWithin; infer_instance

/-- Clamping upward then downward lands in the interval whenever it is nonempty. -/
theorem clamp_mem_of_le {lo hi v : ℚ} (h : lo ≤ hi) :
    lo ≤ Min.min (Max.max v lo) hi ∧ Min.min (Max.max v lo) hi ≤ hi :=
  ⟨le_min (le_max_right v lo) h, min_le_right _ _⟩

/-- Claim C5: for constraints with `min ≤ max` componentwise, the size returned
by `ButtonObject::layout` lies within `[min, max]` componentwise, whatever size
the label child returns; and the size returned by `ButtonElement::layout`
(which is `constraints.max`) does too. -/
theorem C5_layout_within_constraints :
    (∀ (o : ButtonObject) (ctx : LayoutCtx) (bc : BoxConstraints)
        (childLayout : BoxConstraints → Size) (childBaseline : ℚ),
      bc.min.width ≤ bc.max.width → bc.min.height ≤ bc.max.height →
      sizeWithin (ButtonObject.layout o ctx bc childLayout childBaseline).2.2
        bc.min bc.max)
    ∧ (∀ (backend : TextLayoutParams → Option TextLayout) (el el2 : ButtonElement)
        (cs : Constraints) (s : Size),
      cs.min.width ≤ cs.max.width → cs.min.height ≤ cs.max.height →
      ButtonElement.doLayout backend el cs = some (el2, s) →
      sizeWithin s cs.min cs.max) := by
  constructor
  · intro o ctx bc childLayout childBaseline hw hh
    have h1 := clamp_mem_of_le (v := (childLayout ((bc.shrink
      ⟨LABEL_INSETS.x_value, LABEL_INSETS.y_value⟩).loosen)).width
        + LABEL_INSETS.x_value) hw
    have h2 := clamp_mem_of_le (v := Max.max ((childLayout ((bc.shrink
      ⟨LABEL_INSETS.x_value, LABEL_INSETS.y_value⟩).loosen)).height
        + LABEL_INSETS.y_value) (o.style ctx.hot ctx.active).min_height) hh
    exact ⟨h1.1, h1.2, h2.1, h2.2⟩
  · intro backend el el2 cs s hw hh hres
    have hs : s = cs.max := by
      cases hcache : el.layout with
      | some tl =>
          rw [ButtonElement.doLayout, hcache] at hres
          exact (Prod.mk.injEq _ _ _ _ ▸ Option.some.injEq _ _ ▸ hres).2.symm ▸ rfl
      | none =>
          rw [ButtonElement.doLayout, hcache] at hres
          cases hb : backend ⟨el.text, cs.max.width, Color.WHITE⟩ with
          | some tl =>
              rw [hb] at hres
              simp only [Option.some.injEq, Prod.mk.injEq] at hres
              exact hres.2.symm
          | none => rw [hb] at hres; exact absurd hres (by simp)
    subst hs
    exact ⟨hw, le_refl _, hh, le_refl _⟩

/-- Witness for C5 at concrete inputs: a button under constraints
`[10×10, 200×50]` with a 30×10 label measures inside the box, and a cached
`ButtonElement` returns exactly the maximum size, inside the box. -/
theorem C5_layout_within_constraints_witness :
    sizeWithin (ButtonObject.layout ⟨Button.new, ⟨0, 0⟩⟩ ⟨false, false, 0⟩
        ⟨⟨10, 10⟩, ⟨200, 50⟩⟩ (fun _ => ⟨30, 10⟩) 0).2.2 ⟨10, 10⟩ ⟨200, 50⟩
    ∧ sizeWithin (⟨200, 50⟩ : Size) ⟨10, 10⟩ ⟨200, 50⟩ := by
  refine ⟨C5_layout_within_constraints.1 ⟨Button.new, ⟨0, 0⟩⟩ ⟨false, false, 0⟩
      ⟨⟨10, 10⟩, ⟨200, 50⟩⟩ (fun _ => ⟨30, 10⟩) 0 (by norm_num) (by norm_num), ?_⟩
  exact C5_layout_within_constraints.2 (fun _ => none)
    ⟨"OK", some ⟨⟨"OK", 200, Color.WHITE⟩, ⟨20, 10⟩⟩⟩
    ⟨"OK", some ⟨⟨"OK", 200, Color.WHITE⟩, ⟨20, 10⟩⟩⟩
    ⟨⟨10, 10⟩, ⟨200, 50⟩⟩ ⟨200, 50⟩ (by norm_num) (by norm_num) rfl

/-- Claim C6: the blanket `AnyRenderObject` implementation delegates every
method unchanged to the underlying `RenderObject`, and its `name` is the name
of the associated `Properties` type. -/
theorem C6_any_render_object_delegates {S P C : Type} (r : RenderObjectImpl S P C) :
    r.toAny.event = r.event
    ∧ r.toAny.lifecycle = r.lifecycle
    ∧ r.toAny.layout = r.layout
    ∧ r.toAny.paint = r.paint
    ∧ r.toAny.name = r.props.name :=
  ⟨rfl, rfl, rfl, rfl, rfl⟩

/-- Claim C7: `ButtonObject::paint` leaves the backend transform as it found
it on every exit path: whatever the label child's paint does — exit normally
or early — the transform after the `with_save` block equals the transform in
effect before the translate, which is the incoming one (stroke and fill do not
touch it). -/
theorem C7_paint_restores_transform (childPaint : PaintCtx → ExitKind × PaintCtx)
    (o : ButtonObject) (ctx : PaintCtx) :
    (ButtonObject.paint childPaint o ctx).2.transform = ctx.transform := rfl

/-- Claim C8: in `ButtonElement::layout`, with no cached text layout a backend
construction failure is a hard stop (the `unwrap` panics, modelled `none`) with
no fallback; a successful construction is cached; and with a cached layout the
backend is never invoked again — the result is the same for every backend. -/
theorem C8_layout_caches_and_fails_hard
    (backend : TextLayoutParams → Option TextLayout) (el : ButtonElement)
    (cs : Constraints) :
    (el.layout = none →
      backend ⟨el.text, cs.max.width, Color.WHITE⟩ = none →
      ButtonElement.doLayout backend el cs = none)
    ∧ (∀ tl, el.layout = none →
      backend ⟨el.text, cs.max.width, Color.WHITE⟩ = some tl →
      ButtonElement.doLayout backend el cs
        = some ({ el with layout := some tl }, cs.max))
    ∧ (∀ tl, el.layout = some tl →
      ButtonElement.doLayout backend el cs = some (el, cs.max)
      ∧ ∀ backend2, ButtonElement.doLayout backend2 el cs
          = ButtonElement.doLayout backend el cs) := by
  refine ⟨?_, ?_, ?_⟩
  · intro h hb
    simp [ButtonElement.doLayout, h, hb]
  · intro tl h hb
    simp [ButtonElement.doLayout, h, hb]
  · intro tl h
    constructor
    · simp [ButtonElement.doLayout, h]
    · intro backend2
      simp [ButtonElement.doLayout, h]

/-- Witness for C8 at concrete inputs: a failing backend makes the uncached
layout call panic; a succeeding backend's layout is cached; a cached element
gives the same answer under a backend that always fails. -/
theorem C8_layout_caches_and_fails_hard_witness :
    ButtonElement.doLayout (fun _ => none) ⟨"OK", none⟩ ⟨⟨0, 0⟩, ⟨200, 50⟩⟩ = none
    ∧ ButtonElement.doLayout (fun p => some ⟨p, ⟨20, 10⟩⟩) ⟨"OK", none⟩
        ⟨⟨0, 0⟩, ⟨200, 50⟩⟩
      = some (⟨"OK", some ⟨⟨"OK", 200, Color.WHITE⟩, ⟨20, 10⟩⟩⟩, ⟨200, 50⟩)
    ∧ ButtonElement.doLayout (fun _ => none)
        ⟨"OK", some ⟨⟨"OK", 200, Color.WHITE⟩, ⟨20, 10⟩⟩⟩ ⟨⟨0, 0⟩, ⟨200, 50⟩⟩
      = some (⟨"OK", some ⟨⟨"OK", 200, Color.WHITE⟩, ⟨20, 10⟩⟩⟩, ⟨200, 50⟩) := by
  refine ⟨(C8_layout_caches_and_fails_hard (fun _ => none) ⟨"OK", none⟩
      ⟨⟨0, 0⟩, ⟨200, 50⟩⟩).1 rfl rfl, ?_, ?_⟩
  · exact (C8_layout_caches_and_fails_hard (fun p => some ⟨p, ⟨20, 10⟩⟩)
      ⟨"OK", none⟩ ⟨⟨0, 0⟩, ⟨200, 50⟩⟩).2.1
      ⟨⟨"OK", 200, Color.WHITE⟩, ⟨20, 10⟩⟩ rfl rfl
  · exact ((C8_layout_caches_and_fails_hard (fun _ => none)
      ⟨"OK", some ⟨⟨"OK", 200, Color.WHITE⟩, ⟨20, 10⟩⟩⟩ ⟨⟨0, 0⟩, ⟨200, 50⟩⟩).2.2
      ⟨⟨"OK", 200, Color.WHITE⟩, ⟨20, 10⟩⟩ rfl).1

/-- Claim C9: `ButtonElement::paint` panics (modelled `none`) when no text
layout has been cached — i.e. when paint runs before any layout — and under
the precondition that a layout is cached it is total: it fills the rounded
background and then draws the cached text centered in the given size. -/
theorem C9_paint_requires_layout (el : ButtonElement) (size : Size) :
    (el.layout = none → ButtonElement.doPaint el size = none)
    ∧ (∀ tl, el.layout = some tl →
      ButtonElement.doPaint el size
        = some [DrawOp.fillShape ⟨0, 0, size.width, size.height, 5⟩
                  (Color.rgb (1/2) (1/2) (87/100)),
                DrawOp.drawText tl
                  ⟨(size.width - tl.size.width) / 2,
                   (size.height - tl.size.height) / 2⟩]) := by
  constructor
  · intro h
    simp [ButtonElement.doPaint, h]
  · intro tl h
    simp [ButtonElement.doPaint, h]

/-- Witness for C9 at concrete inputs: painting an element that was never laid
out panics; painting one with a cached 20×10 text layout in a 100×30 box fills
the background and draws the text at the centering offset (40, 10). -/
theorem C9_paint_requires_layout_witness :
    ButtonElement.doPaint ⟨"OK", none⟩ ⟨100, 30⟩ = none
    ∧ ButtonElement.doPaint ⟨"OK", some ⟨⟨"OK", 200, Color.WHITE⟩, ⟨20, 10⟩⟩⟩
        ⟨100, 30⟩
      = some [DrawOp.fillShape ⟨0, 0, 100, 30, 5⟩ (Color.rgb (1/2) (1/2) (87/100)),
              DrawOp.drawText ⟨⟨"OK", 200, Color.WHITE⟩, ⟨20, 10⟩⟩ ⟨40, 10⟩] := by
  refine ⟨(C9_paint_requires_layout ⟨"OK", none⟩ ⟨100, 30⟩).1 rfl, ?_⟩
  have h := (C9_paint_requires_layout
    ⟨"OK", some ⟨⟨"OK", 200, Color.WHITE⟩, ⟨20, 10⟩⟩⟩ ⟨100, 30⟩).2
    ⟨⟨"OK", 200, Color.WHITE⟩, ⟨20, 10⟩⟩ rfl
  rw [h]
  norm_num

/-- Claim C10: the `disabled` flag affects only style selection, never event
handling. With `disabled = true` the event handling is identical to the
enabled button's (a left press still activates, a left release while active
and hot still marks the event handled), while `style` returns the sheet's
disabled style whatever the hovered/pressed flags. -/
theorem C10_disabled_affects_only_style (o : ButtonObject) (ctx : EventCtx)
    (hdis : o.props.disabled = true) :
    (∀ e, o.handleEvent ctx e
      = ButtonObject.handleEvent
          { o with props := { o.props with disabled := false } } ctx e)
    ∧ (o.handleEvent ctx (Event.mouseDown ⟨MouseButton.left⟩)).active = true
    ∧ (ctx.active = true → ctx.hot = true →
        (o.handleEvent ctx (Event.mouseUp ⟨MouseButton.left⟩)).handled = true)
    ∧ ∀ hovered pressed,
        o.style hovered pressed = (o.props.style.getD defaultStyleSheet).disabled := by
  refine ⟨fun e => rfl, ?_, ?_, ?_⟩
  · simp [ButtonObject.handleEvent]
  · intro ha hh
    simp [ButtonObject.handleEvent, ha, hh]
  · intro hovered pressed
    simp [ButtonObject.style, hdis]

/-- Witness for C10 at concrete inputs: a disabled hot, active button treats a
completed click exactly as an enabled one — activation on press, handled on
release — and selects the default sheet's disabled style in every hover/press
combination. -/
theorem C10_disabled_affects_only_style_witness :
    (ButtonObject.handleEvent ⟨⟨"", true, none⟩, ⟨0, 0⟩⟩ clickCtx Event.other
      = ButtonObject.handleEvent ⟨⟨"", false, none⟩, ⟨0, 0⟩⟩ clickCtx Event.other)
    ∧ (ButtonObject.handleEvent ⟨⟨"", true, none⟩, ⟨0, 0⟩⟩ clickCtx
        (Event.mouseDown ⟨MouseButton.left⟩)).active = true
    ∧ (ButtonObject.handleEvent ⟨⟨"", true, none⟩, ⟨0, 0⟩⟩ clickCtx
        (Event.mouseUp ⟨MouseButton.left⟩)).handled = true
    ∧ ButtonObject.style ⟨⟨"", true, none⟩, ⟨0, 0⟩⟩ true false
      = defaultStyleSheet.disabled := by
  have h := C10_disabled_affects_only_style ⟨⟨"", true, none⟩, ⟨0, 0⟩⟩ clickCtx rfl
  exact ⟨h.1 Event.other, h.2.1, h.2.2.1 rfl rfl, h.2.2.2 true false⟩
